import Mathlib

/-
Verification of the board revision-code decoder and the shell-output
parsing layer of the rpi_system_info repository (src/libs/pi_info.py).

Python integers are modelled as Nat/Int, Python floats as exact rationals
(every float value appearing in the verified statements is exactly
representable in binary floating point, so true division on them is
exact), fallible Python code (exceptions) as Except values, and logging
as an explicit list of emitted log entries.
-/

namespace RpiInfo

/-- Python exception kinds raised by the modelled code paths. -/
inductive PyError where
  | valueError
  | indexError
  | keyError
  | typeError
  | incorrectFrequencyUnit
deriving DecidableEq, Repr

/-- The ModelType enumeration from src/libs/pi_info.py (class ModelType). -/
inductive ModelType where
  | UNKNOWN
  | RPI_A
  | RPI_B
  | RPI_A_PLUS
  | RPI_B_PLUS
  | RPI_2B
  | RPI_ALPHA
  | RPI_CM1
  | RPI_3B
  | RPI_ZERO
  | RPI_CM3
  | RPI_ZERO_W
  | RPI_3B_PLUS
  | RPI_3A_PLUS
  | RPI_CM3_PLUS
  | RPI_4B
  | RPI_Zero2W
  | RPI_400
  | RPI_CM4
  | RPI_CM4S
  | RPI_5
  | RPI_CM5
  | RPI_CM5_LITE
deriving DecidableEq, Repr

/-- Numeric value of each ModelType enumeration member, as in the source. -/
def ModelType.value : ModelType → Int
  | .UNKNOWN => -100
  | .RPI_A => 0
  | .RPI_B => 1
  | .RPI_A_PLUS => 2
  | .RPI_B_PLUS => 3
  | .RPI_2B => 4
  | .RPI_ALPHA => 5
  | .RPI_CM1 => 6
  | .RPI_3B => 8
  | .RPI_ZERO => 9
  | .RPI_CM3 => 0xA
  | .RPI_ZERO_W => 0xC
  | .RPI_3B_PLUS => 0xD
  | .RPI_3A_PLUS => 0xE
  | .RPI_CM3_PLUS => 0x10
  | .RPI_4B => 0x11
  | .RPI_Zero2W => 0x12
  | .RPI_400 => 0x13
  | .RPI_CM4 => 0x14
  | .RPI_CM4S => 0x15
  | .RPI_5 => 0x17
  | .RPI_CM5 => 0x18
  | .RPI_CM5_LITE => 0x19

/-- All members of the ModelType enumeration. -/
def ModelType.members : List ModelType :=
  [.UNKNOWN, .RPI_A, .RPI_B, .RPI_A_PLUS, .RPI_B_PLUS, .RPI_2B, .RPI_ALPHA,
   .RPI_CM1, .RPI_3B, .RPI_ZERO, .RPI_CM3, .RPI_ZERO_W, .RPI_3B_PLUS,
   .RPI_3A_PLUS, .RPI_CM3_PLUS, .RPI_4B, .RPI_Zero2W, .RPI_400, .RPI_CM4,
   .RPI_CM4S, .RPI_5, .RPI_CM5, .RPI_CM5_LITE]

/-- Python Enum lookup by value: ModelType(v). Returns none where Python
raises ValueError (v is not the value of any member). -/
def ModelType.ofValue (v : Int) : Option ModelType :=
  ModelType.members.find? (fun m => m.value == v)

/-- The dictionary returned by PiInfo.decode_revision_code. The three
permission flags are optional because the old-style branch returns a
dictionary without those keys. -/
structure DecodedInfo where
  model_type : ModelType
  revision : String
  memory_size : Nat
  cpu_model : String
  manufacturer : String
  overvoltage_allowed : Option Bool
  otp_programming_allowed : Option Bool
  otp_reading_allowed : Option Bool
deriving DecidableEq, Repr

/-- The old_boards_revisions_decoder dictionary (18 entries), as an
association list keyed by the full revision-code integer. -/
def old_boards_revisions_decoder :
    List (Nat × (ModelType × String × Nat × String × String)) :=
  [(0x0000, (.UNKNOWN, "0.0", 0, "UNKNOWN", "UNKNOWN")),
   (0x0002, (.RPI_B, "1.0", 256, "BCM2835", "EGOMAN")),
   (0x0003, (.RPI_B, "1.0", 256, "BCM2835", "EGOMAN")),
   (0x0004, (.RPI_B, "2.0", 256, "BCM2835", "SONY_UK")),
   (0x0005, (.RPI_B, "2.0", 256, "BCM2835", "QISDA")),
   (0x0006, (.RPI_B, "2.0", 256, "BCM2835", "EGOMAN")),
   (0x0007, (.RPI_A, "2.0", 256, "BCM2835", "EGOMAN")),
   (0x0008, (.RPI_A, "2.0", 256, "BCM2835", "SONY_UK")),
   (0x0009, (.RPI_A, "2.0", 256, "BCM2835", "QISDA")),
   (0x000D, (.RPI_B, "2.0", 512, "BCM2835", "EGOMAN")),
   (0x000E, (.RPI_B, "2.0", 512, "BCM2835", "SONY_UK")),
   (0x000F, (.RPI_B, "2.0", 512, "BCM2835", "EGOMAN")),
   (0x0010, (.RPI_B_PLUS, "1.2", 512, "BCM2835", "SONY_UK")),
   (0x0011, (.RPI_CM1, "1.0", 512, "BCM2835", "SONY_UK")),
   (0x0012, (.RPI_A_PLUS, "1.1", 256, "BCM2835", "SONY_UK")),
   (0x0013, (.RPI_B_PLUS, "1.2", 512, "BCM2835", "EMBEST")),
   (0x0014, (.RPI_CM1, "1.0", 512, "BCM2835", "EMBEST")),
   (0x0015, (.RPI_A_PLUS, "1.1", 512, "BCM2835", "EMBEST"))]

/-- memory_sizes list from decode_revision_code. -/
def memory_sizes : List Nat := [256, 512, 1024, 2048, 4096, 8192, 16384]

/-- cpu_models list from decode_revision_code. -/
def cpu_models : List String :=
  ["BCM2835", "BCM2836", "BCM2837", "BCM2711", "BCM2712"]

/-- manufacturers list from decode_revision_code. -/
def manufacturers : List String :=
  ["Sony UK", "Egoman", "Embest", "Sony Japan", "Embest", "Stadium"]

/-- Body of PiInfo.decode_revision_code after `code = int(revision_code, 16)`.
Evaluation order follows the Python dictionary literal: the model_type enum
lookup (ValueError on unknown values) comes first, then the memory_sizes,
cpu_models and manufacturers list indexings (IndexError when the bit-field
value exceeds the list length); the old-style branch is a dictionary key
lookup (KeyError when the code is not a key). -/
def decode_code (code : Nat) : Except PyError DecodedInfo :=
  let flag := (code &&& 0x800000) >>> 23
  if flag ≠ 0 then
    match ModelType.ofValue (((code &&& 0xFF0) >>> 4 : Nat) : Int) with
    | none => Except.error PyError.valueError
    | some mt =>
      match memory_sizes.get? ((code &&& 0x700000) >>> 20) with
      | none => Except.error PyError.indexError
      | some mem =>
        match cpu_models.get? ((code &&& 0xF000) >>> 12) with
        | none => Except.error PyError.indexError
        | some cpu =>
          match manufacturers.get? ((code &&& 0xF0000) >>> 16) with
          | none => Except.error PyError.indexError
          | some man =>
            Except.ok ⟨mt, "1." ++ toString (code &&& 0xF), mem, cpu, man,
              some (((code &&& 0x80000000) >>> 31) != 0),
              some (((code &&& 0x40000000) >>> 30) != 0),
              some (((code &&& 0x20000000) >>> 29) != 0)⟩
  else
    match old_boards_revisions_decoder.find? (fun p => p.1 == code) with
    | none => Except.error PyError.keyError
    | some (_, mt, rev, mem, cpu, man) =>
      Except.ok ⟨mt, rev, mem, cpu, man, none, none, none⟩

/-- Value of a single hexadecimal digit character, none for other
characters. -/
def hexDigitVal (c : Char) : Option Nat :=
  if '0' ≤ c ∧ c ≤ '9' then some (c.toNat - '0'.toNat)
  else if 'a' ≤ c ∧ c ≤ 'f' then some (c.toNat - 'a'.toNat + 10)
  else if 'A' ≤ c ∧ c ≤ 'F' then some (c.toNat - 'A'.toNat + 10)
  else none

/-- Accumulator loop for base-16 string parsing. -/
def parseHexAux : List Char → Nat → Option Nat
  | [], acc => some acc
  | c :: cs, acc =>
    match hexDigitVal c with
    | none => none
    | some d => parseHexAux cs (acc * 16 + d)

/-- Model of Python int(s, 16) on plain strings of hexadecimal digits
(no sign, prefix or surrounding whitespace, which never occur in the
verified statements); none models ValueError. -/
def parseHexNat (s : String) : Option Nat :=
  if s.data.isEmpty then none else parseHexAux s.data 0

/-- PiInfo.decode_revision_code: parse the revision-code string as a
base-16 integer, then decode it. -/
def decode_revision_code (s : String) : Except PyError DecodedInfo :=
  match parseHexNat s with
  | none => Except.error PyError.valueError
  | some code => decode_code code

/-- Whether an Except value is a successful result (a returned record
rather than a raised exception). -/
def isOkE {ε α : Type} : Except ε α → Bool
  | Except.ok _ => true
  | Except.error _ => false

instance {ε α : Type} [DecidableEq ε] [DecidableEq α] :
    DecidableEq (Except ε α) := fun x y =>
  match x, y with
  | Except.ok a, Except.ok b =>
    if h : a = b then isTrue (h ▸ rfl)
    else isFalse (fun hh => h (Except.ok.inj hh))
  | Except.error a, Except.error b =>
    if h : a = b then isTrue (h ▸ rfl)
    else isFalse (fun hh => h (Except.error.inj hh))
  | Except.ok _, Except.error _ => isFalse (fun hh => Except.noConfusion hh)
  | Except.error _, Except.ok _ => isFalse (fun hh => Except.noConfusion hh)

/-- Masking with a power of two and shifting right by its exponent
extracts that single bit. -/
theorem and_two_pow_shiftRight (x i : Nat) :
    (x &&& 2 ^ i) >>> i = (x.testBit i).toNat := by
  rw [Nat.and_two_pow, Nat.shiftRight_eq_div_pow,
    Nat.mul_div_cancel _ (Nat.pow_pos (by norm_num))]

/-- The single-bit mask is nonzero exactly when the bit is set. -/
theorem and_two_pow_ne_zero_iff (x i : Nat) :
    x &&& 2 ^ i ≠ 0 ↔ x.testBit i = true := by
  rw [Nat.and_two_pow]
  cases h : x.testBit i <;> simp

/-- Boolean form of single-bit extraction. -/
theorem shift_and_bool (x i : Nat) :
    (((x &&& 2 ^ i) >>> i) != 0) = x.testBit i := by
  rw [and_two_pow_shiftRight]; cases x.testBit i <;> rfl

/-- Claim C2: for each of the 18 legacy revision codes in the historical
table (bit 23 clear), decode_revision_code returns exactly the tabulated
(model, revision string, memory MB, cpu model, manufacturer) tuple, with
no permission-flag entries. -/
theorem decode_legacy_table_exact :
    decode_code 0x0000 = Except.ok ⟨.UNKNOWN, "0.0", 0, "UNKNOWN", "UNKNOWN", none, none, none⟩ ∧
    decode_code 0x0002 = Except.ok ⟨.RPI_B, "1.0", 256, "BCM2835", "EGOMAN", none, none, none⟩ ∧
    decode_code 0x0003 = Except.ok ⟨.RPI_B, "1.0", 256, "BCM2835", "EGOMAN", none, none, none⟩ ∧
    decode_code 0x0004 = Except.ok ⟨.RPI_B, "2.0", 256, "BCM2835", "SONY_UK", none, none, none⟩ ∧
    decode_code 0x0005 = Except.ok ⟨.RPI_B, "2.0", 256, "BCM2835", "QISDA", none, none, none⟩ ∧
    decode_code 0x0006 = Except.ok ⟨.RPI_B, "2.0", 256, "BCM2835", "EGOMAN", none, none, none⟩ ∧
    decode_code 0x0007 = Except.ok ⟨.RPI_A, "2.0", 256, "BCM2835", "EGOMAN", none, none, none⟩ ∧
    decode_code 0x0008 = Except.ok ⟨.RPI_A, "2.0", 256, "BCM2835", "SONY_UK", none, none, none⟩ ∧
    decode_code 0x0009 = Except.ok ⟨.RPI_A, "2.0", 256, "BCM2835", "QISDA", none, none, none⟩ ∧
    decode_code 0x000D = Except.ok ⟨.RPI_B, "2.0", 512, "BCM2835", "EGOMAN", none, none, none⟩ ∧
    decode_code 0x000E = Except.ok ⟨.RPI_B, "2.0", 512, "BCM2835", "SONY_UK", none, none, none⟩ ∧
    decode_code 0x000F = Except.ok ⟨.RPI_B, "2.0", 512, "BCM2835", "EGOMAN", none, none, none⟩ ∧
    decode_code 0x0010 = Except.ok ⟨.RPI_B_PLUS, "1.2", 512, "BCM2835", "SONY_UK", none, none, none⟩ ∧
    decode_code 0x0011 = Except.ok ⟨.RPI_CM1, "1.0", 512, "BCM2835", "SONY_UK", none, none, none⟩ ∧
    decode_code 0x0012 = Except.ok ⟨.RPI_A_PLUS, "1.1", 256, "BCM2835", "SONY_UK", none, none, none⟩ ∧
    decode_code 0x0013 = Except.ok ⟨.RPI_B_PLUS, "1.2", 512, "BCM2835", "EMBEST", none, none, none⟩ ∧
    decode_code 0x0014 = Except.ok ⟨.RPI_CM1, "1.0", 512, "BCM2835", "EMBEST", none, none, none⟩ ∧
    decode_code 0x0015 = Except.ok ⟨.RPI_A_PLUS, "1.1", 512, "BCM2835", "EMBEST", none, none, none⟩ := by
  decide

/-- Claim C4: a revision code with bit 23 clear whose value is not one of
the 18 historical-table keys makes decode_revision_code fail with the
dictionary lookup error (KeyError); no sentinel or partial record is
returned. -/
theorem decode_legacy_unknown_key (code : Nat)
    (h23 : code &&& 0x800000 = 0)
    (hkey : code ∉ old_boards_revisions_decoder.map Prod.fst) :
    decode_code code = Except.error PyError.keyError := by
  have hflag : ((code &&& 0x800000) >>> 23) = 0 := by
    rw [h23]; rfl
  unfold decode_code
  rw [if_neg (by simp [hflag])]
  have hfind : old_boards_revisions_decoder.find? (fun p => p.1 == code) = none := by
    rw [List.find?_eq_none]
    intro p hp
    simp only [beq_iff_eq]
    intro heq
    exact hkey (List.mem_map.mpr ⟨p, hp, heq⟩)
  rw [hfind]

/-- Witness for C4: code 0x0001 has bit 23 clear, is not in the table, and
decodes to a KeyError. -/
theorem decode_legacy_unknown_key_witness :
    decode_code 0x0001 = Except.error PyError.keyError :=
  decode_legacy_unknown_key 0x0001 (by decide) (by decide)

/-- Claim C3 (amended): a new-style revision code (bit 23 set) whose
model_type bit field is not a value of the ModelType enumeration makes
decode_revision_code raise the enum lookup error (ValueError); it does not
return a sentinel UNKNOWN record. -/
theorem decode_unknown_model_raises (code : Nat)
    (h23 : code &&& 0x800000 ≠ 0)
    (hmt : ModelType.ofValue (((code &&& 0xFF0) >>> 4 : Nat) : Int) = none) :
    decode_code code = Except.error PyError.valueError := by
  have hflag : ((code &&& 0x800000) >>> 23) ≠ 0 := by
    have e : (0x800000 : Nat) = 2 ^ 23 := by norm_num
    have hbit : code.testBit 23 = true :=
      (and_two_pow_ne_zero_iff code 23).mp (by rw [← e]; exact h23)
    rw [e, and_two_pow_shiftRight, hbit]
    decide
  unfold decode_code
  rw [if_pos (by simpa using hflag), hmt]

/-- Counterexample to C3 as stated: revision code 0x800070 has bit 23 set
and model_type field 0x7, which is not a ModelType value; decoding raises
ValueError instead of returning any record (in particular, no record with
the UNKNOWN sentinel). -/
theorem decode_unknown_model_counterexample :
    (0x800070 : Nat) &&& 0x800000 ≠ 0 ∧
    ModelType.ofValue (((0x800070 &&& 0xFF0) >>> 4 : Nat) : Int) = none ∧
    decode_code 0x800070 = Except.error PyError.valueError ∧
    isOkE (decode_code 0x800070) = false := by
  decide

/-- Witness for C3 (amended): model_type field 0xB is also not a ModelType
value and yields ValueError. -/
theorem decode_unknown_model_witness :
    decode_code 0x8000B0 = Except.error PyError.valueError :=
  decode_unknown_model_raises 0x8000B0 (by decide) (by decide)

/-- A masked-then-shifted field is bounded by the shifted mask. -/
theorem masked_field_le (x m k : Nat) : (x &&& m) >>> k ≤ m >>> k := by
  rw [Nat.shiftRight_eq_div_pow, Nat.shiftRight_eq_div_pow]
  exact Nat.div_le_div_right Nat.and_le_right

/-- The new-style guard value is nonzero when bit 23 is set. -/
theorem flag_ne_of_bit23 (code : Nat) (h23 : code &&& 0x800000 ≠ 0) :
    ((code &&& 0x800000) >>> 23) ≠ 0 := by
  have e : (0x800000 : Nat) = 2 ^ 23 := by norm_num
  have hbit : code.testBit 23 = true :=
    (and_two_pow_ne_zero_iff code 23).mp (by rw [← e]; exact h23)
  rw [e, and_two_pow_shiftRight, hbit]
  decide

/-- Claim C7 (amended): for a new-style code (bit 23 set) whose model_type
field is a valid ModelType value, an out-of-range cpu field (5 or more),
manufacturer field (6 or more) or memory field (equal to 7) makes
decode_revision_code raise the list IndexError instead of returning a
record or sentinel. -/
theorem decode_index_out_of_range (code : Nat)
    (h23 : code &&& 0x800000 ≠ 0)
    (hmt : (ModelType.ofValue (((code &&& 0xFF0) >>> 4 : Nat) : Int)).isSome = true)
    (hoob : 5 ≤ (code &&& 0xF000) >>> 12 ∨ 6 ≤ (code &&& 0xF0000) >>> 16 ∨
      (code &&& 0x700000) >>> 20 = 7) :
    decode_code code = Except.error PyError.indexError := by
  obtain ⟨mt, hmtv⟩ := Option.isSome_iff_exists.mp hmt
  unfold decode_code
  rw [if_pos (by simpa using flag_ne_of_bit23 code h23), hmtv]
  by_cases hm7 : (code &&& 0x700000) >>> 20 = 7
  · rw [hm7]; rfl
  · have hmemlt : (code &&& 0x700000) >>> 20 < memory_sizes.length := by
      have hle : (code &&& 0x700000) >>> 20 ≤ 7 := by
        have h := masked_field_le code 0x700000 20
        have e : (0x700000 : Nat) >>> 20 = 7 := by decide
        omega
      simp only [memory_sizes, List.length]
      omega
    rw [List.get?_eq_get hmemlt]
    by_cases hc5 : 5 ≤ (code &&& 0xF000) >>> 12
    · have hnone : cpu_models.get? ((code &&& 0xF000) >>> 12) = none := by
        rw [List.get?_eq_none]
        simp only [cpu_models, List.length]
        omega
      rw [hnone]
    · have hman6 : 6 ≤ (code &&& 0xF0000) >>> 16 := by
        rcases hoob with h | h | h
        · omega
        · exact h
        · exact absurd h hm7
      have hcpult : (code &&& 0xF000) >>> 12 < cpu_models.length := by
        simp only [cpu_models, List.length]
        omega
      rw [List.get?_eq_get hcpult]
      have hnone : manufacturers.get? ((code &&& 0xF0000) >>> 16) = none := by
        rw [List.get?_eq_none]
        simp only [manufacturers, List.length]
        omega
      rw [hnone]

/-- Counterexample to C7 as stated: code 0x805070 has bit 23 set and cpu
field 5 (out of range), but its model_type field 0x7 is not a ModelType
value, so decoding raises ValueError, not the claimed IndexError. -/
theorem decode_index_out_of_range_counterexample :
    (0x805070 : Nat) &&& 0x800000 ≠ 0 ∧
    5 ≤ (0x805070 &&& 0xF000) >>> 12 ∧
    decode_code 0x805070 ≠ Except.error PyError.indexError ∧
    decode_code 0x805070 = Except.error PyError.valueError := by
  decide

/-- Witness for C7 (amended): code 0x805000 (valid model field 0x0, cpu
field 5) decodes to IndexError. -/
theorem decode_index_out_of_range_witness :
    decode_code 0x805000 = Except.error PyError.indexError :=
  decode_index_out_of_range 0x805000 (by decide) (by decide) (by decide)

/-- Claim C1 (amended): for every hex revision string whose parsed integer
has bit 23 set, whose model_type field is a ModelType value and whose
memory, cpu and manufacturer fields are within their lookup tables,
decode_revision_code returns a record whose revision is "1." followed by
bits [0:4), whose memory_size, cpu_model and manufacturer come from the
documented tables indexed by bits [20:23), [12:16) and [16:20), and whose
three permission flags equal bits 31, 30 and 29. -/
theorem decode_new_style_fields (s : String) (code : Nat)
    (hs : parseHexNat s = some code)
    (h23 : code &&& 0x800000 ≠ 0)
    (hmt : (ModelType.ofValue (((code &&& 0xFF0) >>> 4 : Nat) : Int)).isSome = true)
    (hmem : (code &&& 0x700000) >>> 20 ≠ 7)
    (hcpu : (code &&& 0xF000) >>> 12 < 5)
    (hman : (code &&& 0xF0000) >>> 16 < 6) :
    ∃ r : DecodedInfo, decode_revision_code s = Except.ok r ∧
      r.revision = "1." ++ toString (code &&& 0xF) ∧
      memory_sizes.get? ((code &&& 0x700000) >>> 20) = some r.memory_size ∧
      cpu_models.get? ((code &&& 0xF000) >>> 12) = some r.cpu_model ∧
      manufacturers.get? ((code &&& 0xF0000) >>> 16) = some r.manufacturer ∧
      r.overvoltage_allowed = some (code.testBit 31) ∧
      r.otp_programming_allowed = some (code.testBit 30) ∧
      r.otp_reading_allowed = some (code.testBit 29) := by
  obtain ⟨mt, hmtv⟩ := Option.isSome_iff_exists.mp hmt
  have hmemlt : (code &&& 0x700000) >>> 20 < memory_sizes.length := by
    have hle : (code &&& 0x700000) >>> 20 ≤ 7 := by
      have h := masked_field_le code 0x700000 20
      have e : (0x700000 : Nat) >>> 20 = 7 := by decide
      omega
    simp only [memory_sizes, List.length]
    omega
  have hcpult : (code &&& 0xF000) >>> 12 < cpu_models.length := by
    simp only [cpu_models, List.length]
    omega
  have hmanlt : (code &&& 0xF0000) >>> 16 < manufacturers.length := by
    simp only [manufacturers, List.length]
    omega
  have e31 : (0x80000000 : Nat) = 2 ^ 31 := by norm_num
  have e30 : (0x40000000 : Nat) = 2 ^ 30 := by norm_num
  have e29 : (0x20000000 : Nat) = 2 ^ 29 := by norm_num
  have hdec : decode_code code =
      Except.ok ⟨mt, "1." ++ toString (code &&& 0xF),
        memory_sizes.get ⟨(code &&& 0x700000) >>> 20, hmemlt⟩,
        cpu_models.get ⟨(code &&& 0xF000) >>> 12, hcpult⟩,
        manufacturers.get ⟨(code &&& 0xF0000) >>> 16, hmanlt⟩,
        some (((code &&& 0x80000000) >>> 31) != 0),
        some (((code &&& 0x40000000) >>> 30) != 0),
        some (((code &&& 0x20000000) >>> 29) != 0)⟩ := by
    unfold decode_code
    rw [if_pos (by simpa using flag_ne_of_bit23 code h23), hmtv,
      List.get?_eq_get hmemlt, List.get?_eq_get hcpult, List.get?_eq_get hmanlt]
  have hrev : decode_revision_code s = decode_code code := by
    unfold decode_revision_code
    rw [hs]
  refine ⟨_, hrev.trans hdec, rfl, List.get?_eq_get hmemlt, List.get?_eq_get hcpult,
    List.get?_eq_get hmanlt, ?_, ?_, ?_⟩
  · show some ((((code &&& 0x80000000) >>> 31)) != 0) = some (code.testBit 31)
    rw [e31, shift_and_bool]
  · show some ((((code &&& 0x40000000) >>> 30)) != 0) = some (code.testBit 30)
    rw [e30, shift_and_bool]
  · show some ((((code &&& 0x20000000) >>> 29)) != 0) = some (code.testBit 29)
    rw [e29, shift_and_bool]

/-- Counterexample to C1 as stated: the string "f03111" parses to a code
with bit 23 set whose memory field is 7 (outside the 7-entry table);
decoding raises IndexError instead of returning a record. -/
theorem decode_new_style_fields_counterexample :
    parseHexNat "f03111" = some 0xF03111 ∧
    (0xF03111 : Nat) &&& 0x800000 ≠ 0 ∧
    (0xF03111 &&& 0x700000) >>> 20 = 7 ∧
    decode_revision_code "f03111" = Except.error PyError.indexError ∧
    isOkE (decode_revision_code "f03111") = false := by
  decide

/-- Witness for C1 (amended): the string "a03111" decodes to a record with
revision "1.1", 1024 MB, BCM2711, Sony UK and all three flags false. -/
theorem decode_new_style_fields_witness :
    ∃ r : DecodedInfo, decode_revision_code "a03111" = Except.ok r ∧
      r.revision = "1." ++ toString (0xA03111 &&& 0xF) ∧
      memory_sizes.get? ((0xA03111 &&& 0x700000) >>> 20) = some r.memory_size ∧
      cpu_models.get? ((0xA03111 &&& 0xF000) >>> 12) = some r.cpu_model ∧
      manufacturers.get? ((0xA03111 &&& 0xF0000) >>> 16) = some r.manufacturer ∧
      r.overvoltage_allowed = some ((0xA03111 : Nat).testBit 31) ∧
      r.otp_programming_allowed = some ((0xA03111 : Nat).testBit 30) ∧
      r.otp_reading_allowed = some ((0xA03111 : Nat).testBit 29) :=
  decode_new_style_fields "a03111" 0xA03111 (by decide) (by decide) (by decide)
    (by decide) (by decide) (by decide)

/-- A Python number is either an int or a float. Floats are modelled as
exact rationals; every float value in the verified statements is exactly
representable in binary floating point, so the modelled arithmetic agrees
with the source. -/
inductive PyNum where
  | intVal (n : Int)
  | floatVal (q : ℚ)
deriving DecidableEq, Repr

/-- Numeric value carried by a PyNum. -/
def PyNum.toRat : PyNum → ℚ
  | .intVal n => (n : ℚ)
  | .floatVal q => q

/-- Python true division `x / d` for a positive integer divisor: the
result is always a float. -/
def pyTrueDiv (x : PyNum) (d : Nat) : PyNum :=
  PyNum.floatVal (x.toRat / (d : ℚ))

/-- PiInfo.float_to_int_if_zero_fraction: converts a float with zero
fractional part to an int, returns other floats unchanged, and raises
TypeError on non-float input (the isinstance check). -/
def float_to_int_if_zero_fraction : PyNum → Except PyError PyNum
  | .floatVal q =>
    if q.den = 1 then Except.ok (.intVal q.num) else Except.ok (.floatVal q)
  | .intVal _ => Except.error PyError.typeError

/-- PiInfo.convert_frequency: converts a frequency in Hz to the requested
unit. The match on the unit string is modelled as a chain of equality
tests; the wildcard case raises IncorrectFrequencyUnitError. -/
def convert_frequency (frequency : PyNum) (unit : String) : Except PyError PyNum :=
  if unit = "Hz" then float_to_int_if_zero_fraction frequency
  else if unit = "KHz" then float_to_int_if_zero_fraction (pyTrueDiv frequency (10 ^ 3))
  else if unit = "MHz" then float_to_int_if_zero_fraction (pyTrueDiv frequency (10 ^ 6))
  else if unit = "GHz" then float_to_int_if_zero_fraction (pyTrueDiv frequency (10 ^ 9))
  else Except.error PyError.incorrectFrequencyUnit

/-- Claim C6: convert_frequency(1_000_000_000, GHz) equals the int 1,
convert_frequency(1_500_000, MHz) equals the float 1.5, and every unit
string outside Hz/KHz/MHz/GHz raises IncorrectFrequencyUnitError instead
of silently defaulting. -/
theorem convert_frequency_spec :
    convert_frequency (.intVal 1000000000) "GHz" = Except.ok (.intVal 1) ∧
    convert_frequency (.intVal 1500000) "MHz" = Except.ok (.floatVal (3 / 2)) ∧
    ∀ unit : String, unit ∉ (["Hz", "KHz", "MHz", "GHz"] : List String) →
      ∀ f : PyNum, convert_frequency f unit = Except.error PyError.incorrectFrequencyUnit := by
  refine ⟨?_, ?_, ?_⟩
  · unfold convert_frequency
    rw [if_neg (by decide), if_neg (by decide), if_neg (by decide), if_pos rfl]
    unfold pyTrueDiv
    have hq : (PyNum.intVal 1000000000).toRat / ((10 ^ 9 : Nat) : ℚ) = 1 := by
      simp only [PyNum.toRat]
      norm_num
    rw [hq]
    simp only [float_to_int_if_zero_fraction]
    rw [if_pos (by norm_num)]
    norm_num
  · unfold convert_frequency
    rw [if_neg (by decide), if_neg (by decide), if_pos rfl]
    unfold pyTrueDiv
    have hq : (PyNum.intVal 1500000).toRat / ((10 ^ 6 : Nat) : ℚ) = 3 / 2 := by
      simp only [PyNum.toRat]
      norm_num
    rw [hq]
    simp only [float_to_int_if_zero_fraction]
    rw [if_neg (by norm_num)]
  intro unit hu f
  have h1 : unit ≠ "Hz" := fun h => hu (by rw [h]; decide)
  have h2 : unit ≠ "KHz" := fun h => hu (by rw [h]; decide)
  have h3 : unit ≠ "MHz" := fun h => hu (by rw [h]; decide)
  have h4 : unit ≠ "GHz" := fun h => hu (by rw [h]; decide)
  unfold convert_frequency
  rw [if_neg h1, if_neg h2, if_neg h3, if_neg h4]

/-- Witness for C6: the unsupported unit "THz" raises
IncorrectFrequencyUnitError. -/
theorem convert_frequency_spec_witness :
    convert_frequency (.intVal 7) "THz" = Except.error PyError.incorrectFrequencyUnit :=
  convert_frequency_spec.2.2 "THz" (by decide) (.intVal 7)

/-- Claim C10: with unit Hz, convert_frequency raises TypeError for every
int argument (the zero-fraction helper rejects non-floats), while the same
int argument is accepted for KHz, MHz and GHz, where division first
produces a float. -/
theorem convert_frequency_hz_int_typeerror (n : Int) :
    convert_frequency (.intVal n) "Hz" = Except.error PyError.typeError ∧
    (∃ r, convert_frequency (.intVal n) "KHz" = Except.ok r) ∧
    (∃ r, convert_frequency (.intVal n) "MHz" = Except.ok r) ∧
    (∃ r, convert_frequency (.intVal n) "GHz" = Except.ok r) := by
  refine ⟨rfl, ?_, ?_, ?_⟩
  · unfold convert_frequency
    rw [if_neg (by decide), if_pos rfl]
    unfold pyTrueDiv
    simp only [float_to_int_if_zero_fraction]
    split
    · exact ⟨_, rfl⟩
    · exact ⟨_, rfl⟩
  · unfold convert_frequency
    rw [if_neg (by decide), if_neg (by decide), if_pos rfl]
    unfold pyTrueDiv
    simp only [float_to_int_if_zero_fraction]
    split
    · exact ⟨_, rfl⟩
    · exact ⟨_, rfl⟩
  · unfold convert_frequency
    rw [if_neg (by decide), if_neg (by decide), if_neg (by decide), if_pos rfl]
    unfold pyTrueDiv
    simp only [float_to_int_if_zero_fraction]
    split
    · exact ⟨_, rfl⟩
    · exact ⟨_, rfl⟩

/-- Witness for C10 at the concrete int 5. -/
theorem convert_frequency_hz_int_typeerror_witness :
    convert_frequency (.intVal 5) "Hz" = Except.error PyError.typeError ∧
    (∃ r, convert_frequency (.intVal 5) "KHz" = Except.ok r) ∧
    (∃ r, convert_frequency (.intVal 5) "MHz" = Except.ok r) ∧
    (∃ r, convert_frequency (.intVal 5) "GHz" = Except.ok r) :=
  convert_frequency_hz_int_typeerror 5

/-- The whitespace characters recognised by Python str.split and
str.strip (ASCII subset, which covers all inputs in this development). -/
def isPySpace (c : Char) : Bool :=
  c = ' ' || c = '\t' || c = '\n' || c = '\r' || c = '\x0b' || c = '\x0c'

/-- Python str.strip(): remove leading and trailing whitespace. -/
def pyStrip (s : String) : String :=
  ⟨((s.data.dropWhile isPySpace).reverse.dropWhile isPySpace).reverse⟩

/-- Severity levels of the logging side channel. -/
inductive LogLevel where
  | debug
  | info
  | warning
  | error
deriving DecidableEq, Repr

/-- One emitted log record: severity and message text. -/
structure LogEntry where
  level : LogLevel
  msg : String
deriving DecidableEq, Repr

/-- Outcome of launching an external command, the input over which the
shell reader is verified: either the command is not found, or the process
exits with a return code, stdout and stderr. -/
inductive ProcOutcome where
  | notFound
  | exited (returncode : Int) (stdout stderr : String)

/-- PiInfo.__get_shell_cmd_output: subprocess.run with check=True raises
CalledProcessError on a non-zero exit code and FileNotFoundError when the
command is missing; both are caught, logged at error severity, and turn
into an empty-string result. A zero exit code returns stripped stdout
with no logging. The pair is (returned string, emitted log entries). -/
def get_shell_cmd_output (command : String) (proc : ProcOutcome) :
    String × List LogEntry :=
  match proc with
  | .notFound => ("", [⟨LogLevel.error, "Command not found: " ++ command⟩])
  | .exited rc out err =>
    if rc = 0 then (pyStrip out, [])
    else ("", [⟨LogLevel.error,
      "Shell command \x27" ++ command ++ "\x27 failed (code " ++ toString rc
        ++ "): " ++ pyStrip err⟩])

/-- Claim C5: for any command whose execution exits with a non-zero code,
the shell reader returns the empty-string failure value together with
exactly one log entry; that entry has error severity and its message
contains both the failing command text and the captured (stripped) stderr
text. The reader is a total function of the process outcome: the
exceptions subprocess.run can raise here are caught, so no exception
escapes its boundary. -/
theorem shell_reader_nonzero_exit (command out err : String) (rc : Int)
    (h : rc ≠ 0) :
    ∃ msg : String,
      get_shell_cmd_output command (.exited rc out err) =
        ("", [⟨LogLevel.error, msg⟩]) ∧
      (∃ p q : String, msg = p ++ command ++ q) ∧
      (∃ p q : String, msg = p ++ pyStrip err ++ q) := by
  refine ⟨"Shell command \x27" ++ command ++ "\x27 failed (code " ++ toString rc
      ++ "): " ++ pyStrip err, ?_, ?_, ?_⟩
  · simp only [get_shell_cmd_output]
    rw [if_neg h]
  · refine ⟨"Shell command \x27",
      "\x27 failed (code " ++ toString rc ++ "): " ++ pyStrip err, ?_⟩
    simp only [String.append_assoc]
  · refine ⟨"Shell command \x27" ++ command ++ "\x27 failed (code "
      ++ toString rc ++ "): ", "", ?_⟩
    rw [String.append_empty]

/-- Witness for C5: a concrete failing command. -/
theorem shell_reader_nonzero_exit_witness :
    ∃ msg : String,
      get_shell_cmd_output "nproc" (.exited 127 "" "not found") =
        ("", [⟨LogLevel.error, msg⟩]) ∧
      (∃ p q : String, msg = p ++ "nproc" ++ q) ∧
      (∃ p q : String, msg = p ++ pyStrip "not found" ++ q) :=
  shell_reader_nonzero_exit "nproc" "" "not found" 127 (by decide)

/-- Python str.splitlines() over characters, for newline-separated text
(the separator produced by the tools parsed here): accumulates the current
line in reverse. -/
def splitlinesAux : List Char → List Char → List (List Char)
  | [], acc => if acc.isEmpty then [] else [acc.reverse]
  | c :: cs, acc =>
    if c = '\n' then acc.reverse :: splitlinesAux cs []
    else splitlinesAux cs (c :: acc)

/-- Python str.splitlines() at the String level. -/
def pySplitlines (s : String) : List String :=
  (splitlinesAux s.data []).map (fun l => ⟨l⟩)

/-- Python str.split() with no arguments: runs of whitespace separate
tokens, leading and trailing whitespace is ignored. -/
def splitWsAux : List Char → List Char → List (List Char)
  | [], acc => if acc.isEmpty then [] else [acc.reverse]
  | c :: cs, acc =>
    if isPySpace c then
      if acc.isEmpty then splitWsAux cs []
      else acc.reverse :: splitWsAux cs []
    else splitWsAux cs (c :: acc)

/-- Python str.split() at the String level. -/
def pySplitWs (s : String) : List String :=
  (splitWsAux s.data []).map (fun l => ⟨l⟩)

/-- Python str.split(maxsplit=m): after m splits the remainder (with its
leading whitespace removed, trailing whitespace kept) is the final token. -/
def splitWsMax : Nat → List Char → List (List Char)
  | m, cs =>
    match m, cs.dropWhile isPySpace with
    | _, [] => []
    | 0, rest => [rest]
    | Nat.succ m, rest =>
      rest.takeWhile (fun c => !isPySpace c) ::
        splitWsMax m (rest.dropWhile (fun c => !isPySpace c))

/-- Python line.split(maxsplit=m) at the String level. -/
def pySplitWsMax (s : String) (m : Nat) : List String :=
  (splitWsMax m s.data).map (fun l => ⟨l⟩)

/-- Python str.replace(t, "") for a single character: drop every
occurrence. -/
def removeAllChar (t : Char) (s : String) : String :=
  ⟨s.data.filter (fun c => c != t)⟩

/-- One row of the df output, as assembled by PiInfo.get_disks_info via
dict(zip(headers, values)) with the percent sign stripped from
use_percent. -/
structure DiskRecord where
  filesystem : String
  size : String
  used : String
  available : String
  use_percent : String
  mounted_on : String
deriving DecidableEq, Repr

/-- One iteration body of the get_disks_info row loop: split the line with
maxsplit=5, skip it when the field count is not 6, otherwise build the
record (use_percent with "%" removed). -/
def parseDiskRow (line : String) : Option DiskRecord :=
  let values := pySplitWsMax line 5
  if values.length = 6 then
    some ⟨values.getD 0 "", values.getD 1 "", values.getD 2 "",
      values.getD 3 "", removeAllChar '%' (values.getD 4 ""),
      values.getD 5 ""⟩
  else none

/-- The get_disks_info for-loop over data lines, accumulating records. -/
def disksLoop : List String → List DiskRecord → List DiskRecord
  | [], acc => acc
  | l :: ls, acc =>
    match parseDiskRow l with
    | none => disksLoop ls acc
    | some r => disksLoop ls (acc ++ [r])

/-- PiInfo.get_disks_info as a function of the shell output text: empty
output returns no records; otherwise the header line is dropped, an empty
remainder logs one warning, and each remaining line is parsed by the row
loop. The pair is (records, emitted log entries). -/
def get_disks_info (output : String) : List DiskRecord × List LogEntry :=
  if output ≠ "" then
    let lines := (pySplitlines output).drop 1
    if lines.isEmpty then
      ([], [⟨LogLevel.warning, "No disk usage information available"⟩])
    else (disksLoop lines [], [])
  else ([], [])

/-- The accumulator loop keeps exactly the parseable rows, in input
order. -/
theorem disksLoop_eq_filterMap (ls : List String) :
    ∀ acc : List DiskRecord,
      disksLoop ls acc = acc ++ ls.filterMap parseDiskRow := by
  induction ls with
  | nil => intro acc; simp [disksLoop]
  | cons l ls ih =>
    intro acc
    unfold disksLoop
    cases h : parseDiskRow l with
    | none => simp [ih, List.filterMap_cons, h]
    | some r => simp [ih, List.filterMap_cons, h]

/-- Claim C8 (amended): for a df output with at least one data row, the
disk parser returns exactly the well-formed rows (those splitting into 6
fields with maxsplit=5) as records, in input order; malformed rows are
skipped silently — no log entry of any severity is emitted — and nothing
fails. -/
theorem disks_skip_malformed_keep_rest (output : String)
    (hrows : (pySplitlines output).drop 1 ≠ []) :
    (get_disks_info output).1 =
      ((pySplitlines output).drop 1).filterMap parseDiskRow ∧
    (get_disks_info output).2 = [] ∧
    (∀ line : String,
      (pySplitWsMax line 5).length ≠ 6 → parseDiskRow line = none) ∧
    (∀ line : String,
      (pySplitWsMax line 5).length = 6 → ∃ r, parseDiskRow line = some r) := by
  have hout : output ≠ "" := by
    intro h
    rw [h] at hrows
    exact hrows rfl
  have hne : ¬ ((pySplitlines output).drop 1).isEmpty = true := by
    simpa [List.isEmpty_iff] using hrows
  refine ⟨?_, ?_, ?_, ?_⟩
  · simp only [get_disks_info, if_pos hout, if_neg hne]
    rw [disksLoop_eq_filterMap]
    simp
  · simp only [get_disks_info, if_pos hout, if_neg hne]
  · intro line h
    simp only [parseDiskRow, if_neg h]
  · intro line h
    refine ⟨⟨(pySplitWsMax line 5).getD 0 "", (pySplitWsMax line 5).getD 1 "",
      (pySplitWsMax line 5).getD 2 "", (pySplitWsMax line 5).getD 3 "",
      removeAllChar '%' ((pySplitWsMax line 5).getD 4 ""),
      (pySplitWsMax line 5).getD 5 ""⟩, ?_⟩
    simp only [parseDiskRow]
    rw [if_pos h]

/-- Counterexample to C8 as stated: a malformed three-field row is indeed
skipped and the well-formed row kept, but the log side channel stays
empty — no warning entry is produced for the skipped row. -/
theorem disks_no_warning_counterexample :
    get_disks_info
        "Filesystem Size Used Avail Use% Mounted\nbad row only\n/dev/root 15G 4.2G 9.6G 31% /" =
      ([⟨"/dev/root", "15G", "4.2G", "9.6G", "31", "/"⟩], []) := by
  decide

/-- Witness for C8 (amended): the same two-row output, through the
theorem. -/
theorem disks_skip_malformed_keep_rest_witness :
    (get_disks_info
        "Filesystem Size Used Avail Use% Mounted\nbad row only\n/dev/root 15G 4.2G 9.6G 31% /").1 =
      ((pySplitlines
        "Filesystem Size Used Avail Use% Mounted\nbad row only\n/dev/root 15G 4.2G 9.6G 31% /").drop 1).filterMap
        parseDiskRow ∧
    (get_disks_info
        "Filesystem Size Used Avail Use% Mounted\nbad row only\n/dev/root 15G 4.2G 9.6G 31% /").2 = [] :=
  ⟨(disks_skip_malformed_keep_rest _ (by decide)).1,
   (disks_skip_malformed_keep_rest _ (by decide)).2.1⟩

/-- Python " ".join over character lists: single spaces between
elements. -/
def joinWords : List (List Char) → List Char
  | [] => []
  | t :: ts =>
    match ts with
    | [] => t
    | _ :: _ => t ++ ' ' :: joinWords ts

/-- Python " ".join(parts) at the String level. -/
def pyJoinSpace (xs : List String) : String :=
  ⟨joinWords (xs.map String.data)⟩

/-- Python s.startswith(pre). -/
def pyStartsWith (s pre : String) : Bool :=
  pre.data.isPrefixOf s.data

/-- Python list.index(target): index of the first occurrence, none models
the ValueError raised when the element is absent. -/
def pyIndexOf (target : String) : List String → Option Nat
  | [] => none
  | x :: xs => if x = target then some 0 else (pyIndexOf target xs).map (· + 1)

/-- Python list indexing values[i] with negative-index wrap-around; none
models IndexError. -/
def pyIdx {α : Type} (xs : List α) (i : Int) : Option α :=
  if 0 ≤ i then xs.get? i.toNat
  else
    let j : Int := (xs.length : Int) + i
    if 0 ≤ j then xs.get? j.toNat else none

/-- Clamped bound of a Python slice endpoint. -/
def pySliceBound (len : Nat) (i : Int) : Nat :=
  if i < 0 then ((len : Int) + i).toNat else min i.toNat len

/-- Python list slicing values[lo:hi] (never raises). -/
def pySlice {α : Type} (xs : List α) (lo hi : Int) : List α :=
  (xs.take (pySliceBound xs.length hi)).drop (pySliceBound xs.length lo)

/-- One Wi-Fi network record assembled by
PiInfo.get_available_wifi_networks. -/
structure WifiRecord where
  ssid : String
  bssid : String
  mode : String
  channel : String
  rate : String
  signal : String
  bars : String
  security : String
deriving DecidableEq, Repr

/-- Core of one get_available_wifi_networks loop iteration, after
tokenization: locate the "Mbit/s" anchor with list.index (ValueError when
absent) and assemble the record; field accesses follow the evaluation
order of the Python dictionary literal, any IndexError aborting the
iteration. -/
def parseWifiValues (values : List String) : Except PyError WifiRecord :=
  match pyIndexOf "Mbit/s" values with
  | none => Except.error PyError.valueError
  | some k =>
    let ssid := pyJoinSpace (pySlice values 1 ((k : Int) - 3))
    match pyIdx values 0 with
    | none => Except.error PyError.indexError
    | some bssid =>
      match pyIdx values ((k : Int) - 3) with
      | none => Except.error PyError.indexError
      | some mode =>
        match pyIdx values ((k : Int) - 2) with
        | none => Except.error PyError.indexError
        | some channel =>
          let rate := pyJoinSpace (pySlice values ((k : Int) - 1) ((k : Int) + 1))
          match pyIdx values ((k : Int) + 1) with
          | none => Except.error PyError.indexError
          | some signal =>
            match pyIdx values ((k : Int) + 2) with
            | none => Except.error PyError.indexError
            | some bars =>
              let security :=
                pyJoinSpace (pySlice values ((k : Int) + 3) (values.length : Int))
              Except.ok ⟨ssid, bssid, mode, channel, rate, signal, bars, security⟩

/-- Tokenize one nmcli output line, drop the in-use marker column when the
line starts with "*", and assemble the record. -/
def parseWifiLine (line : String) : Except PyError WifiRecord :=
  let values0 := pySplitWs line
  parseWifiValues
    (if pyStartsWith line "*" then pySlice values0 1 (values0.length : Int)
     else values0)

/-- The get_available_wifi_networks loop: on the first raised exception
the except handler logs one error entry and the records accumulated so
far are returned. -/
def wifiLoop : List String → List WifiRecord → List WifiRecord × List LogEntry
  | [], acc => (acc, [])
  | l :: ls, acc =>
    match parseWifiLine l with
    | Except.ok r => wifiLoop ls (acc ++ [r])
    | Except.error _ =>
      (acc, [⟨LogLevel.error,
        "Unexpected error while retrieving Wi-Fi networks info"⟩])

/-- PiInfo.get_available_wifi_networks as a function of the shell output
text: empty output returns no records; the header line is dropped; an
empty remainder logs one warning; otherwise each line is parsed in
order. -/
def get_available_wifi_networks (output : String) :
    List WifiRecord × List LogEntry :=
  if output ≠ "" then
    let lines := (pySplitlines output).drop 1
    if lines.isEmpty then
      ([], [⟨LogLevel.warning, "No Wi-Fi networks information available"⟩])
    else wifiLoop lines []
  else ([], [])

/-- A well-formed whitespace-separated token: nonempty and containing no
whitespace characters. -/
def goodTok (t : String) : Bool :=
  !t.data.isEmpty && t.data.all (fun c => !isPySpace c)

/-- Unpacked form of goodTok. -/
theorem goodTok_spec (t : String) (h : goodTok t = true) :
    t.data ≠ [] ∧ ∀ c ∈ t.data, isPySpace c = false := by
  unfold goodTok at h
  rw [Bool.and_eq_true] at h
  constructor
  · intro hnil
    have h1 := h.1
    rw [hnil] at h1
    simp at h1
  · intro c hc
    have h2 := List.all_eq_true.mp h.2 c hc
    simpa using h2

/-- The whitespace splitter passes over a whitespace-free chunk,
accumulating it. -/
theorem splitWsAux_token (t : List Char) :
    ∀ (rest acc : List Char), (∀ c ∈ t, isPySpace c = false) →
      splitWsAux (t ++ rest) acc = splitWsAux rest (t.reverse ++ acc) := by
  induction t with
  | nil => intro rest acc h; simp
  | cons c cs ih =>
    intro rest acc h
    have hc : isPySpace c = false := h c (by simp)
    rw [List.cons_append, show splitWsAux (c :: (cs ++ rest)) acc =
      splitWsAux (cs ++ rest) (c :: acc) from by simp [splitWsAux, hc]]
    rw [ih rest (c :: acc) (fun x hx => h x (by simp [hx]))]
    simp [List.append_assoc]

/-- Splitting the space-joined concatenation of well-formed tokens
recovers exactly those tokens. -/
theorem splitWsAux_joinWords (toks : List (List Char)) :
    (∀ t ∈ toks, t ≠ [] ∧ ∀ c ∈ t, isPySpace c = false) →
    splitWsAux (joinWords toks) [] = toks := by
  induction toks with
  | nil => intro _; rfl
  | cons t ts ih =>
    intro h
    obtain ⟨htne, htws⟩ := h t (by simp)
    have hrevne : ¬ (t.reverse.isEmpty = true) := by
      simp [List.isEmpty_iff, htne]
    cases ts with
    | nil =>
      have h2 := splitWsAux_token t [] [] htws
      simp only [List.append_nil] at h2
      rw [show joinWords [t] = t from rfl, h2]
      simp only [splitWsAux, if_neg hrevne]
      simp
    | cons t2 ts2 =>
      rw [show joinWords (t :: t2 :: ts2) = t ++ ' ' :: joinWords (t2 :: ts2)
        from rfl]
      rw [splitWsAux_token t _ [] htws]
      simp only [List.append_nil]
      rw [show splitWsAux (' ' :: joinWords (t2 :: ts2)) t.reverse =
        t.reverse.reverse :: splitWsAux (joinWords (t2 :: ts2)) [] from by
          simp [splitWsAux, isPySpace, htne]]
      rw [ih (fun u hu => h u (by simp [hu]))]
      simp

/-- Rebuilding strings from their character lists is the identity. -/
theorem map_mk_data (l : List String) :
    (l.map String.data).map (fun cs => (⟨cs⟩ : String)) = l := by
  induction l with
  | nil => rfl
  | cons s rest ih =>
    show (⟨s.data⟩ : String) :: _ = s :: rest
    rw [ih]

/-- Python str.split is a left inverse of " ".join on well-formed
tokens. -/
theorem pySplitWs_join (toks : List String)
    (h : ∀ t ∈ toks, goodTok t = true) :
    pySplitWs (pyJoinSpace toks) = toks := by
  unfold pySplitWs pyJoinSpace
  rw [show (⟨joinWords (toks.map String.data)⟩ : String).data =
    joinWords (toks.map String.data) from rfl]
  rw [splitWsAux_joinWords]
  · exact map_mk_data toks
  · intro t ht
    obtain ⟨s, hs, rfl⟩ := List.mem_map.mp ht
    exact goodTok_spec s (h s hs)

/-- The line splitter passes over a newline-free chunk, accumulating
it. -/
theorem splitlinesAux_chunk (t : List Char) :
    ∀ (rest acc : List Char), (∀ c ∈ t, c ≠ '\n') →
      splitlinesAux (t ++ rest) acc = splitlinesAux rest (t.reverse ++ acc) := by
  induction t with
  | nil => intro rest acc h; simp
  | cons c cs ih =>
    intro rest acc h
    have hc : c ≠ '\n' := h c (by simp)
    rw [List.cons_append, show splitlinesAux (c :: (cs ++ rest)) acc =
      splitlinesAux (cs ++ rest) (c :: acc) from by simp [splitlinesAux, hc]]
    rw [ih rest (c :: acc) (fun x hx => h x (by simp [hx]))]
    simp [List.append_assoc]

/-- Splitting a header line, a newline and a nonempty data row yields
exactly those two lines. -/
theorem pySplitlines_two (hdr row : String)
    (hh : ∀ c ∈ hdr.data, c ≠ '\n')
    (hr : ∀ c ∈ row.data, c ≠ '\n')
    (hrne : row.data ≠ []) :
    pySplitlines (hdr ++ "\n" ++ row) = [hdr, row] := by
  unfold pySplitlines
  have hd : (hdr ++ "\n" ++ row).data = hdr.data ++ '\n' :: row.data := by
    rw [String.data_append, String.data_append,
      show ("\n" : String).data = ['\n'] from rfl, List.append_assoc]
    rfl
  rw [hd, splitlinesAux_chunk hdr.data _ [] hh]
  simp only [List.append_nil]
  rw [show splitlinesAux ('\n' :: row.data) hdr.data.reverse =
    hdr.data.reverse.reverse :: splitlinesAux row.data [] from by
      simp [splitlinesAux]]
  have h2 := splitlinesAux_chunk row.data [] [] hr
  simp only [List.append_nil] at h2
  rw [h2, show splitlinesAux [] row.data.reverse = [row.data.reverse.reverse]
    from by simp [splitlinesAux, List.isEmpty_iff, hrne]]
  simp only [List.reverse_reverse, List.map]

/-- joinWords of a nonempty token list begins with its first token. -/
theorem joinWords_cons (t : List Char) (ts : List (List Char)) :
    ∃ tl : List Char, joinWords (t :: ts) = t ++ tl := by
  cases ts with
  | nil => exact ⟨[], by simp [joinWords]⟩
  | cons a l => exact ⟨' ' :: joinWords (a :: l), rfl⟩

/-- joinWords of a list starting with a nonempty token is nonempty. -/
theorem joinWords_cons_ne_nil (t : List Char) (ts : List (List Char))
    (h : t ≠ []) : joinWords (t :: ts) ≠ [] := by
  obtain ⟨tl, htl⟩ := joinWords_cons t ts
  rw [htl]
  simp [h]

/-- Every character of a joined token list is a separator space or a
character of some token. -/
theorem mem_joinWords (c : Char) : ∀ toks : List (List Char),
    c ∈ joinWords toks → c = ' ' ∨ ∃ t ∈ toks, c ∈ t := by
  intro toks
  induction toks with
  | nil => intro h; simp [joinWords] at h
  | cons t ts ih =>
    intro h
    cases ts with
    | nil =>
      right
      exact ⟨t, by simp, by simpa [joinWords] using h⟩
    | cons a l =>
      rw [show joinWords (t :: a :: l) = t ++ ' ' :: joinWords (a :: l)
        from rfl] at h
      rcases List.mem_append.mp h with h1 | h2
      · right; exact ⟨t, by simp, h1⟩
      · rcases List.mem_cons.mp h2 with h3 | h4
        · left; exact h3
        · rcases ih h4 with h5 | ⟨u, hu, hcu⟩
          · left; exact h5
          · right; exact ⟨u, by simp [hu], hcu⟩

/-- A single-character prefix test only looks at the first chunk when it
is nonempty. -/
theorem isPrefixOf_single_append (c0 : Char) (l1 l2 : List Char)
    (h : l1 ≠ []) : [c0].isPrefixOf (l1 ++ l2) = [c0].isPrefixOf l1 := by
  cases l1 with
  | nil => exact absurd rfl h
  | cons c cs => simp [List.isPrefixOf]

/-- list.index skips a prefix without the target. -/
theorem pyIndexOf_append_not (target : String) (l1 l2 : List String)
    (h : ∀ x ∈ l1, x ≠ target) :
    pyIndexOf target (l1 ++ l2) = (pyIndexOf target l2).map (· + l1.length) := by
  induction l1 with
  | nil => simp
  | cons x xs ih =>
    have hx : x ≠ target := h x (by simp)
    rw [List.cons_append, show pyIndexOf target (x :: (xs ++ l2)) =
      (pyIndexOf target (xs ++ l2)).map (· + 1) from by
        simp [pyIndexOf, hx]]
    rw [ih (fun y hy => h y (by simp [hy]))]
    cases pyIndexOf target l2 with
    | none => rfl
    | some k =>
      simp [Option.map_some]
      omega

/-- list.index finds the target at the head. -/
theorem pyIndexOf_cons_self (target : String) (l : List String) :
    pyIndexOf target (target :: l) = some 0 := by
  simp [pyIndexOf]

/-- Python indexing at a nonnegative index is plain list lookup. -/
theorem pyIdx_natCast {α : Type} (xs : List α) (m : Nat) :
    pyIdx xs ((m : Nat) : Int) = xs.get? m := by
  unfold pyIdx
  rw [if_pos (Int.natCast_nonneg m), Int.toNat_natCast]

/-- Python slicing with nonnegative bounds is clamped take-drop. -/
theorem pySlice_natCast {α : Type} (xs : List α) (a b : Nat) :
    pySlice xs ((a : Nat) : Int) ((b : Nat) : Int) =
      (xs.take (min b xs.length)).drop (min a xs.length) := by
  unfold pySlice pySliceBound
  rw [if_neg (by omega), if_neg (by omega), Int.toNat_natCast,
    Int.toNat_natCast]

/-- Assembling the record from a well-shaped nmcli token row recovers
every column, with the variable-width SSID tokens rejoined and the rate
paired with its "Mbit/s" unit. -/
theorem parseWifiValues_spec (bssid mode chan rate signal bars : String)
    (ws sec : List String)
    (hbm : bssid ≠ "Mbit/s")
    (hwsm : ∀ w ∈ ws, w ≠ "Mbit/s")
    (hmodem : mode ≠ "Mbit/s") (hchanm : chan ≠ "Mbit/s")
    (hratem : rate ≠ "Mbit/s") :
    parseWifiValues
        (bssid :: (ws ++ mode :: chan :: rate :: "Mbit/s" :: signal :: bars :: sec)) =
      Except.ok ⟨pyJoinSpace ws, bssid, mode, chan, rate ++ " Mbit/s",
        signal, bars, pyJoinSpace sec⟩ := by
  set V : List String :=
    bssid :: (ws ++ mode :: chan :: rate :: "Mbit/s" :: signal :: bars :: sec)
    with hV
  have hlen : V.length = ws.length + 7 + sec.length := by
    simp [hV]
    omega
  have hpre : ∀ x ∈ bssid :: (ws ++ [mode, chan, rate]), x ≠ "Mbit/s" := by
    intro x hx
    rcases List.mem_cons.mp hx with rfl | hx2
    · exact hbm
    rcases List.mem_append.mp hx2 with hw | hx3
    · exact hwsm x hw
    · simp only [List.mem_cons, List.not_mem_nil, or_false] at hx3
      rcases hx3 with rfl | rfl | rfl
      · exact hmodem
      · exact hchanm
      · exact hratem
  have hidx : pyIndexOf "Mbit/s" V = some (ws.length + 4) := by
    have hsplitV : V = (bssid :: (ws ++ [mode, chan, rate])) ++
        ("Mbit/s" :: signal :: bars :: sec) := by
      simp [hV]
    rw [hsplitV, pyIndexOf_append_not _ _ _ hpre, pyIndexOf_cons_self]
    simp
  have hget : ∀ j : Nat, V.get? (ws.length + 1 + j) =
      (mode :: chan :: rate :: "Mbit/s" :: signal :: bars :: sec).get? j := by
    intro j
    rw [hV, show ws.length + 1 + j = (ws.length + j) + 1 from by omega,
      List.get?_cons_succ, List.get?_append_right (by omega)]
    congr 1
    omega
  have f_bssid : pyIdx V 0 = some bssid := by
    rw [show (0 : Int) = ((0 : Nat) : Int) from rfl, pyIdx_natCast, hV]
    rfl
  have f_mode : pyIdx V (((ws.length + 4 : Nat) : Int) - 3) = some mode := by
    rw [show ((ws.length + 4 : Nat) : Int) - 3 = ((ws.length + 1 : Nat) : Int)
      from by push_cast; ring, pyIdx_natCast,
      show ws.length + 1 = ws.length + 1 + 0 from by omega, hget 0]
    rfl
  have f_chan : pyIdx V (((ws.length + 4 : Nat) : Int) - 2) = some chan := by
    rw [show ((ws.length + 4 : Nat) : Int) - 2 = ((ws.length + 2 : Nat) : Int)
      from by push_cast; ring, pyIdx_natCast,
      show ws.length + 2 = ws.length + 1 + 1 from by omega, hget 1]
    rfl
  have f_signal : pyIdx V (((ws.length + 4 : Nat) : Int) + 1) = some signal := by
    rw [show ((ws.length + 4 : Nat) : Int) + 1 = ((ws.length + 5 : Nat) : Int)
      from by push_cast; ring, pyIdx_natCast,
      show ws.length + 5 = ws.length + 1 + 4 from by omega, hget 4]
    rfl
  have f_bars : pyIdx V (((ws.length + 4 : Nat) : Int) + 2) = some bars := by
    rw [show ((ws.length + 4 : Nat) : Int) + 2 = ((ws.length + 6 : Nat) : Int)
      from by push_cast; ring, pyIdx_natCast,
      show ws.length + 6 = ws.length + 1 + 5 from by omega, hget 5]
    rfl
  have f_ssid : pySlice V 1 (((ws.length + 4 : Nat) : Int) - 3) = ws := by
    rw [show (1 : Int) = ((1 : Nat) : Int) from rfl,
      show ((ws.length + 4 : Nat) : Int) - 3 = ((ws.length + 1 : Nat) : Int)
        from by push_cast; ring, pySlice_natCast,
      Nat.min_eq_left (by omega), Nat.min_eq_left (by omega),
      show V = (bssid :: ws) ++
        (mode :: chan :: rate :: "Mbit/s" :: signal :: bars :: sec) from by
          simp [hV],
      List.take_left' (by simp)]
    rfl
  have f_rate : pySlice V (((ws.length + 4 : Nat) : Int) - 1)
      (((ws.length + 4 : Nat) : Int) + 1) = [rate, "Mbit/s"] := by
    rw [show ((ws.length + 4 : Nat) : Int) - 1 = ((ws.length + 3 : Nat) : Int)
        from by push_cast; ring,
      show ((ws.length + 4 : Nat) : Int) + 1 = ((ws.length + 5 : Nat) : Int)
        from by push_cast; ring, pySlice_natCast,
      Nat.min_eq_left (by omega), Nat.min_eq_left (by omega),
      show V = ((bssid :: ws) ++ [mode, chan, rate, "Mbit/s"]) ++
        (signal :: bars :: sec) from by simp [hV],
      List.take_left' (by simp)]
    rw [show (bssid :: ws) ++ [mode, chan, rate, "Mbit/s"] =
      ((bssid :: ws) ++ [mode, chan]) ++ [rate, "Mbit/s"] from by simp,
      List.drop_left' (by simp)]
  have f_sec : pySlice V (((ws.length + 4 : Nat) : Int) + 3)
      ((V.length : Nat) : Int) = sec := by
    rw [show ((ws.length + 4 : Nat) : Int) + 3 = ((ws.length + 7 : Nat) : Int)
        from by push_cast; ring, pySlice_natCast, Nat.min_self,
      List.take_length, Nat.min_eq_left (by omega),
      show V = ((bssid :: ws) ++ [mode, chan, rate, "Mbit/s", signal, bars]) ++
        sec from by simp [hV],
      List.drop_left' (by simp)]
  have hjoin2 : pyJoinSpace [rate, "Mbit/s"] = rate ++ " Mbit/s" := by
    apply String.ext
    rw [String.data_append]
    rfl
  simp only [parseWifiValues, hidx]
  rw [f_bssid, f_mode, f_chan, f_signal, f_bars, f_ssid, f_rate, f_sec, hjoin2]

/-- Claim C9: for every well-formed Wi-Fi scan row containing the
"Mbit/s" anchor token, the parser resolves the variable-width SSID field
by locating that token: a row whose SSID consists of any number of
space-separated words yields the full multi-word SSID (and every other
column), regardless of the word count. -/
theorem wifi_multiword_ssid (hdr bssid mode chan rate signal bars : String)
    (ws sec : List String)
    (hhdr : ∀ c ∈ hdr.data, c ≠ '\n')
    (hb : goodTok bssid = true) (hbm : bssid ≠ "Mbit/s")
    (hbstar : pyStartsWith bssid "*" = false)
    (hws : ∀ w ∈ ws, goodTok w = true ∧ w ≠ "Mbit/s")
    (hmode : goodTok mode = true) (hmodem : mode ≠ "Mbit/s")
    (hchan : goodTok chan = true) (hchanm : chan ≠ "Mbit/s")
    (hrate : goodTok rate = true) (hratem : rate ≠ "Mbit/s")
    (hsig : goodTok signal = true) (hbars : goodTok bars = true)
    (hsec : ∀ w ∈ sec, goodTok w = true) :
    get_available_wifi_networks
        (hdr ++ "\n" ++ pyJoinSpace
          (bssid :: (ws ++ mode :: chan :: rate :: "Mbit/s" :: signal :: bars :: sec))) =
      ([⟨pyJoinSpace ws, bssid, mode, chan, rate ++ " Mbit/s", signal, bars,
        pyJoinSpace sec⟩], []) := by
  set T : List String :=
    bssid :: (ws ++ mode :: chan :: rate :: "Mbit/s" :: signal :: bars :: sec)
    with hT
  have htoksgood : ∀ t ∈ T, goodTok t = true := by
    intro t ht
    rw [hT] at ht
    simp only [List.mem_cons, List.mem_append] at ht
    rcases ht with rfl | ht | rfl | rfl | rfl | rfl | rfl | rfl | ht
    · exact hb
    · exact (hws t ht).1
    · exact hmode
    · exact hchan
    · exact hrate
    · decide
    · exact hsig
    · exact hbars
    · exact hsec t ht
  have hbdata : bssid.data ≠ [] := (goodTok_spec bssid hb).1
  have hrowchar : ∀ c ∈ (pyJoinSpace T).data, c ≠ '\n' := by
    intro c hc hceq
    rcases mem_joinWords c (T.map String.data) hc with h1 | ⟨t, ht, hct⟩
    · rw [hceq] at h1
      exact absurd h1 (by decide)
    · obtain ⟨s, hs, rfl⟩ := List.mem_map.mp ht
      have hns := (goodTok_spec s (htoksgood s hs)).2 c hct
      rw [hceq] at hns
      simp [isPySpace] at hns
  have hrowne : (pyJoinSpace T).data ≠ [] := by
    show joinWords (T.map String.data) ≠ []
    rw [hT, List.map_cons]
    exact joinWords_cons_ne_nil _ _ hbdata
  have hlines := pySplitlines_two hdr (pyJoinSpace T) hhdr hrowchar hrowne
  have houtne : hdr ++ "\n" ++ pyJoinSpace T ≠ "" := by
    intro heq
    have hd := congrArg String.data heq
    rw [String.data_append, String.data_append,
      show ("\n" : String).data = ['\n'] from rfl] at hd
    simp at hd
  have hstep : get_available_wifi_networks (hdr ++ "\n" ++ pyJoinSpace T) =
      wifiLoop [pyJoinSpace T] [] := by
    unfold get_available_wifi_networks
    rw [if_pos houtne, hlines]
    rfl
  have hstar : pyStartsWith (pyJoinSpace T) "*" = false := by
    unfold pyStartsWith
    rw [show (pyJoinSpace T).data = joinWords (T.map String.data) from rfl,
      hT, List.map_cons]
    obtain ⟨tl, htl⟩ := joinWords_cons bssid.data
      ((ws ++ mode :: chan :: rate :: "Mbit/s" :: signal :: bars :: sec).map
        String.data)
    rw [htl, show ("*" : String).data = ['*'] from rfl,
      isPrefixOf_single_append '*' _ _ hbdata]
    unfold pyStartsWith at hbstar
    rw [show ("*" : String).data = ['*'] from rfl] at hbstar
    exact hbstar
  have hsplit : pySplitWs (pyJoinSpace T) = T := pySplitWs_join T htoksgood
  have hparse : parseWifiLine (pyJoinSpace T) =
      Except.ok ⟨pyJoinSpace ws, bssid, mode, chan, rate ++ " Mbit/s", signal,
        bars, pyJoinSpace sec⟩ := by
    unfold parseWifiLine
    rw [hsplit, hstar]
    show parseWifiValues T = Except.ok ⟨pyJoinSpace ws, bssid, mode, chan,
      rate ++ " Mbit/s", signal, bars, pyJoinSpace sec⟩
    rw [hT]
    exact parseWifiValues_spec bssid mode chan rate signal bars ws sec hbm
      (fun w hw => (hws w hw).2) hmodem hchanm hratem
  rw [hstep]
  unfold wifiLoop
  rw [hparse]
  rfl

/-- Witness for C9: a row whose SSID is the three words "My Home Net". -/
theorem wifi_multiword_ssid_witness :
    get_available_wifi_networks
        ("IN-USE BSSID SSID MODE CHAN RATE SIGNAL BARS SECURITY" ++ "\n" ++
          pyJoinSpace ("AA:BB" :: (["My", "Home", "Net"] ++ "Infra" :: "6" ::
            "135" :: "Mbit/s" :: "70" :: "____" :: ["WPA2"]))) =
      ([⟨pyJoinSpace ["My", "Home", "Net"], "AA:BB", "Infra", "6",
        "135" ++ " Mbit/s", "70", "____", pyJoinSpace ["WPA2"]⟩], []) :=
  wifi_multiword_ssid "IN-USE BSSID SSID MODE CHAN RATE SIGNAL BARS SECURITY"
    "AA:BB" "Infra" "6" "135" "70" "____" ["My", "Home", "Net"] ["WPA2"]
    (by decide) (by decide) (by decide) (by decide) (by decide) (by decide)
    (by decide) (by decide) (by decide) (by decide) (by decide) (by decide)
    (by decide) (by decide)

end RpiInfo
